import Mathlib

/-!
Shallow embedding of the nanbox crate (src/lib.rs).

A 64-bit machine word is modelled as a `Nat` (theorems carry explicit
bounds such as `w < 2 ^ 64` where they matter); signed machine integers
are modelled as `Int`, and every Rust numeric cast is made explicit as a
function.  An `f64` is modelled by its 64-bit IEEE-754 bit pattern, since
the crate only ever reinterprets its bits (`mem::transmute`).
-/

/-- Constant `DOUBLE_MAX_TAG: u32 = 0x1FFF0` from src/lib.rs. -/
def DOUBLE_MAX_TAG : Nat := 0x1FFF0

/-- Constant `SHIFTED_DOUBLE_MAX_TAG: u64 = ((DOUBLE_MAX_TAG as u64) << 47) | 0xFFFFFFFF`. -/
def SHIFTED_DOUBLE_MAX_TAG : Nat := (DOUBLE_MAX_TAG <<< 47) ||| 0xFFFFFFFF

/-- Rust expression `!DOUBLE_MAX_TAG` at type `u32` (bitwise complement in 32 bits). -/
def NOT_DOUBLE_MAX_TAG : Nat := 0xFFFFFFFF ^^^ DOUBLE_MAX_TAG

/-- The `NanBox(u64)` newtype. -/
structure NanBox where
  val : Nat
deriving DecidableEq

/-- Method `NanBox::tag`:
`if self.0 <= SHIFTED_DOUBLE_MAX_TAG { 0 } else { (self.0 >> 47) as u32 & !DOUBLE_MAX_TAG }`.
The `as u32` truncation is the `% 2 ^ 32`. -/
def NanBox.tag (b : NanBox) : Nat :=
  if b.val ≤ SHIFTED_DOUBLE_MAX_TAG then 0
  else ((b.val >>> 47) % 2 ^ 32) &&& NOT_DOUBLE_MAX_TAG

/-- Default method `NanBoxable::pack_nan_box` acting on the already
bit-reinterpreted payload word:
`b.0 |= ((DOUBLE_MAX_TAG as u64) | (tag as u64)) << 47`.
(The `debug_assert!(b.tag() == tag)` that follows is stated as a
separate property where a claim is about it.) -/
def pack_nan_box (payload : Nat) (tag : Nat) : Nat :=
  payload ||| ((DOUBLE_MAX_TAG ||| tag) <<< 47)

/-- Default method `NanBoxable::unpack_nan_box` before the per-type cast:
`NanBox(value.0 & ((1 << 48) - 1))`. -/
def unpack_nan_box (w : Nat) : Nat :=
  w &&& ((1 <<< 48) - 1)

/-- Rust cast `n.0 as u8` (truncation of a u64 word). -/
def u64_as_u8 (n : Nat) : Nat := n % 2 ^ 8

/-- Rust cast `n.0 as u16`. -/
def u64_as_u16 (n : Nat) : Nat := n % 2 ^ 16

/-- Rust cast `n.0 as u32`. -/
def u64_as_u32 (n : Nat) : Nat := n % 2 ^ 32

/-- Rust cast `n.0 as i8`: truncate to 8 bits, reinterpret as signed. -/
def u64_as_i8 (n : Nat) : Int :=
  if n % 2 ^ 8 < 2 ^ 7 then (n % 2 ^ 8 : Nat) else (n % 2 ^ 8 : Nat) - 2 ^ 8

/-- Rust cast `n.0 as i16`. -/
def u64_as_i16 (n : Nat) : Int :=
  if n % 2 ^ 16 < 2 ^ 15 then (n % 2 ^ 16 : Nat) else (n % 2 ^ 16 : Nat) - 2 ^ 16

/-- Rust cast `n.0 as i32`. -/
def u64_as_i32 (n : Nat) : Int :=
  if n % 2 ^ 32 < 2 ^ 31 then (n % 2 ^ 32 : Nat) else (n % 2 ^ 32 : Nat) - 2 ^ 32

/-- Rust cast `self as u64` on a signed value (`i8`, `i16` or `i32`):
sign-extension, i.e. reduction modulo `2 ^ 64`. -/
def int_as_u64 (v : Int) : Nat := (v % (2 ^ 64)).toNat

/-- The `impl NanBoxable for f64` override of `pack_nan_box`:
`debug_assert!(tag == 0); self.into_nan_box()` is a raw bit
reinterpretation that ignores the tag argument entirely. -/
def f64_pack_nan_box (bits : Nat) (tag : Nat) : Nat := bits

/-- The `impl NanBoxable for f64` override of `unpack_nan_box`:
raw bit reinterpretation of the whole word, no masking. -/
def f64_unpack_nan_box (w : Nat) : Nat := w

/-- IEEE-754 double: NaN means exponent field all ones and nonzero mantissa. -/
def f64_is_nan (bits : Nat) : Prop :=
  (bits >>> 52) &&& 0x7FF = 0x7FF ∧ bits &&& 0xFFFFFFFFFFFFF ≠ 0

instance (bits : Nat) : Decidable (f64_is_nan bits) := by
  unfold f64_is_nan; infer_instance

/-- Pointer `into_nan_box` in release semantics: `NanBox(self as u64)`,
the address reinterpreted as a 64-bit integer. -/
def ptr_into_nan_box (p : Nat) : Nat := p

/-- Pointer `into_nan_box` with its debug assertion modelled:
`debug_assert!((self as u64) >> 48 == 0)`; the assertion failure path
is `none`. -/
def ptr_into_nan_box_checked (p : Nat) : Option NanBox :=
  if p >>> 48 = 0 then some ⟨p⟩ else none

/-- Pointer `from_nan_box`: `n.0 as *mut T`, the word reinterpreted as an
address. -/
def ptr_from_nan_box (b : NanBox) : Nat := b.val

/-- Pointer decode through the default `unpack_nan_box` (mask to 48 bits,
then the address cast). -/
def ptr_unpack_nan_box (w : Nat) : Nat := ptr_from_nan_box ⟨unpack_nan_box w⟩

/-- Encoding a `u8` with a tag: `NanBox::new(tag, v) = v.pack_nan_box(tag)`
with `into_nan_box` the zero-extension. -/
def encode_u8 (tag : Nat) (v : Nat) : Nat := pack_nan_box v tag

/-- Decoding a word as `u8`. -/
def decode_u8 (w : Nat) : Nat := u64_as_u8 (unpack_nan_box w)

/-- Encoding a `u16` with a tag. -/
def encode_u16 (tag : Nat) (v : Nat) : Nat := pack_nan_box v tag

/-- Decoding a word as `u16`. -/
def decode_u16 (w : Nat) : Nat := u64_as_u16 (unpack_nan_box w)

/-- Encoding a `u32` with a tag. -/
def encode_u32 (tag : Nat) (v : Nat) : Nat := pack_nan_box v tag

/-- Decoding a word as `u32`. -/
def decode_u32 (w : Nat) : Nat := u64_as_u32 (unpack_nan_box w)

/-- Encoding an `i8` with a tag (`self as u64` sign-extends). -/
def encode_i8 (tag : Nat) (v : Int) : Nat := pack_nan_box (int_as_u64 v) tag

/-- Decoding a word as `i8`. -/
def decode_i8 (w : Nat) : Int := u64_as_i8 (unpack_nan_box w)

/-- Encoding an `i16` with a tag. -/
def encode_i16 (tag : Nat) (v : Int) : Nat := pack_nan_box (int_as_u64 v) tag

/-- Decoding a word as `i16`. -/
def decode_i16 (w : Nat) : Int := u64_as_i16 (unpack_nan_box w)

/-- Encoding an `i32` with a tag. -/
def encode_i32 (tag : Nat) (v : Int) : Nat := pack_nan_box (int_as_u64 v) tag

/-- Decoding a word as `i32`. -/
def decode_i32 (w : Nat) : Int := u64_as_i32 (unpack_nan_box w)

/-- The sum type generated by `make_nanbox!` for the test schema
`{Float(f64), Int(i32), Pointer(*mut ())}`, Float declared first.
The `f64` payload is modelled by its bit pattern, the pointer by its
address. -/
inductive Variant where
  | Float (bits : Nat)
  | Int (v : Int)
  | Pointer (p : Nat)
deriving DecidableEq

/-- The generated wrapper type holding one `NanBox`. -/
structure Value where
  value : NanBox
deriving DecidableEq

/-- The generated `impl From<Variant> for Value`: the tag counter starts
at 0 and is incremented per declared variant, so Float gets tag 0, Int
tag 1, Pointer tag 2, each passed to `NanBox::new` which dispatches to
the per-type `pack_nan_box`. -/
def Value.fromVariant : Variant → Value
  | .Float bits => ⟨⟨f64_pack_nan_box bits 0⟩⟩
  | .Int v => ⟨⟨pack_nan_box (int_as_u64 v) 1⟩⟩
  | .Pointer p => ⟨⟨pack_nan_box (ptr_into_nan_box p) 2⟩⟩

/-- The generated `into_variant`: compare `self.value.tag()` against the
expected tag of each declared variant in order and decode with that type
on a match; the trailing `debug_assert!(false)` and `unreachable!()`
(a panic in every build) is `none`. -/
def Value.into_variant (x : Value) : Option Variant :=
  if x.value.tag = 0 then some (.Float (f64_unpack_nan_box x.value.val))
  else if x.value.tag = 1 then some (.Int (u64_as_i32 (unpack_nan_box x.value.val)))
  else if x.value.tag = 2 then some (.Pointer (ptr_unpack_nan_box x.value.val))
  else none

/-- A second instantiation of `make_nanbox!` with the schema
`{IntV(i32), FloatV(f64)}`: the double type declared second, used to
observe the float override at a nonzero positional tag. -/
inductive VariantFloatSecond where
  | IntV (v : Int)
  | FloatV (bits : Nat)
deriving DecidableEq

/-- The `From` conversion the generator produces for that schema: the
positional counter passes tag 0 to the Int payload and tag 1 to the
Float payload. -/
def wrapFloatSecond : VariantFloatSecond → NanBox
  | .IntV v => ⟨pack_nan_box (int_as_u64 v) 0⟩
  | .FloatV bits => ⟨f64_pack_nan_box bits 1⟩

/-- Definition following the words of the spec for `tag_of`: boundary
test, then a right shift by 47 keeping only the 4 tag bits. -/
def tag_of_spec (w : Nat) : Nat :=
  if w ≤ SHIFTED_DOUBLE_MAX_TAG then 0 else (w >>> 47) &&& 0xF

/-! Bridge lemmas translating the bit-level operations into arithmetic. -/

lemma shifted_val : SHIFTED_DOUBLE_MAX_TAG = 0xFFF80000FFFFFFFF := by decide

lemma not_dmt_val : NOT_DOUBLE_MAX_TAG = 0xFFFE000F := by decide

lemma dmt_lor (t : Nat) (ht : t < 2 ^ 4) : DOUBLE_MAX_TAG ||| t = DOUBLE_MAX_TAG + t := by
  have h := Nat.mul_add_lt_is_or ht 0x1FFF
  simp only [DOUBLE_MAX_TAG]
  norm_num at h
  exact h.symm

lemma pack_eq (payload t : Nat) (ht : t < 2 ^ 4) (hp : payload < 2 ^ 47) :
    pack_nan_box payload t = (DOUBLE_MAX_TAG + t) * 2 ^ 47 + payload := by
  unfold pack_nan_box
  rw [dmt_lor t ht, Nat.shiftLeft_eq]
  calc payload ||| (DOUBLE_MAX_TAG + t) * 2 ^ 47
      = 2 ^ 47 * (DOUBLE_MAX_TAG + t) ||| payload := by
        rw [Nat.lor_comm, Nat.mul_comm]
    _ = 2 ^ 47 * (DOUBLE_MAX_TAG + t) + payload :=
        (Nat.mul_add_lt_is_or hp (DOUBLE_MAX_TAG + t)).symm
    _ = (DOUBLE_MAX_TAG + t) * 2 ^ 47 + payload := by rw [Nat.mul_comm]

lemma and_not_dmt (t : Nat) (ht : t ≤ 15) :
    (DOUBLE_MAX_TAG + t) &&& NOT_DOUBLE_MAX_TAG = t := by
  interval_cases t <;> decide

/-- `NanBox::tag` reads back exactly the tag that the default
`pack_nan_box` inserted, whenever the packed payload stays below bit 47. -/
lemma tag_pack (t payload : Nat) (ht : t ≤ 15) (hp : payload < 2 ^ 47) :
    NanBox.tag ⟨pack_nan_box payload t⟩ = t := by
  rw [pack_eq payload t (by omega) hp]
  unfold NanBox.tag
  by_cases hc : (DOUBLE_MAX_TAG + t) * 2 ^ 47 + payload ≤ SHIFTED_DOUBLE_MAX_TAG
  · rw [if_pos hc]
    rw [shifted_val] at hc
    simp only [DOUBLE_MAX_TAG] at hc
    have p47 : (2 : Nat) ^ 47 = 0x800000000000 := by norm_num
    rw [p47] at hc
    omega
  · rw [if_neg hc]
    have hdiv : ((DOUBLE_MAX_TAG + t) * 2 ^ 47 + payload) >>> 47 = DOUBLE_MAX_TAG + t := by
      rw [Nat.shiftRight_eq_div_pow, Nat.mul_comm,
        Nat.mul_add_div (by positivity) (DOUBLE_MAX_TAG + t) payload,
        Nat.div_eq_of_lt hp, Nat.add_zero]
    rw [hdiv, Nat.mod_eq_of_lt (by simp only [DOUBLE_MAX_TAG]; omega)]
    exact and_not_dmt t ht

lemma unpack_nan_box_eq (w : Nat) : unpack_nan_box w = w % 2 ^ 48 := by
  unfold unpack_nan_box
  have h : ((1 : Nat) <<< 48) - 1 = 2 ^ 48 - 1 := by
    rw [Nat.shiftLeft_eq, Nat.one_mul]
  rw [h, Nat.and_pow_two_sub_one_eq_mod]

lemma lor_mod_two_pow (a b n : Nat) :
    (a ||| b) % 2 ^ n = (a % 2 ^ n) ||| (b % 2 ^ n) := by
  apply Nat.eq_of_testBit_eq
  intro i
  simp [Nat.testBit_mod_two_pow, Nat.testBit_or, Bool.and_or_distrib_left]

/-- The low bits of a packed word are the low bits of the payload: the
tag material lives entirely at bit 47 and above. -/
lemma pack_mod_low (payload t n : Nat) (hn : n ≤ 47) :
    pack_nan_box payload t % 2 ^ n = payload % 2 ^ n := by
  unfold pack_nan_box
  rw [lor_mod_two_pow]
  have hz : ((DOUBLE_MAX_TAG ||| t) <<< 47) % 2 ^ n = 0 := by
    rw [Nat.shiftLeft_eq]
    exact Nat.mod_eq_zero_of_dvd (Dvd.dvd.mul_left (pow_dvd_pow 2 hn) _)
  rw [hz, Nat.or_zero]

lemma and_mask_17 (x : Nat) (hx : x < 2 ^ 17) : x &&& 0xFFFE000F = x &&& 0xF := by
  apply Nat.eq_of_testBit_eq
  intro i
  simp only [Nat.testBit_and]
  rcases Nat.lt_or_ge i 17 with hi | hi
  · have hbit := (show ∀ j, j < 17 → Nat.testBit 0xFFFE000F j = Nat.testBit 0xF j from
      by decide) i hi
    rw [hbit]
  · rw [Nat.testBit_lt_two_pow (lt_of_lt_of_le hx (Nat.pow_le_pow_right (by norm_num) hi))]
    simp

/-- Decoding through the default unpack keeps exactly the low `k` bits of
the payload, for any width up to 47. -/
lemma decode_mod_low (t v k : Nat) (hk : k ≤ 47) :
    unpack_nan_box (pack_nan_box v t) % 2 ^ k = v % 2 ^ k := by
  rw [unpack_nan_box_eq,
    Nat.mod_mod_of_dvd _ (pow_dvd_pow 2 (show k ≤ 48 by omega)),
    pack_mod_low v t k hk]

lemma int_as_u64_nonneg (v : Int) (h0 : 0 ≤ v) (h : v < 2 ^ 31) :
    int_as_u64 v < 2 ^ 47 := by
  unfold int_as_u64
  omega

lemma decode_i8_encode (t : Nat) (v : Int) (h1 : -(2 ^ 7) ≤ v) (h2 : v < 2 ^ 7) :
    decode_i8 (encode_i8 t v) = v := by
  unfold decode_i8 encode_i8 u64_as_i8
  rw [decode_mod_low t (int_as_u64 v) 8 (by norm_num)]
  unfold int_as_u64
  split <;> omega

lemma decode_i16_encode (t : Nat) (v : Int) (h1 : -(2 ^ 15) ≤ v) (h2 : v < 2 ^ 15) :
    decode_i16 (encode_i16 t v) = v := by
  unfold decode_i16 encode_i16 u64_as_i16
  rw [decode_mod_low t (int_as_u64 v) 16 (by norm_num)]
  unfold int_as_u64
  split <;> omega

lemma decode_i32_encode (t : Nat) (v : Int) (h1 : -(2 ^ 31) ≤ v) (h2 : v < 2 ^ 31) :
    decode_i32 (encode_i32 t v) = v := by
  unfold decode_i32 encode_i32 u64_as_i32
  rw [decode_mod_low t (int_as_u64 v) 32 (by norm_num)]
  unfold int_as_u64
  split <;> omega

/-! Claim theorems. -/

/-- C6: `tag_of` is a pure total function computed exactly as the spec
describes: words at or below the boundary constant give tag 0, all other
words give the 4 tag bits of the word shifted right by 47. -/
theorem tag_matches_spec (w : Nat) (hw : w < 2 ^ 64) :
    NanBox.tag ⟨w⟩ = tag_of_spec w := by
  unfold NanBox.tag tag_of_spec
  by_cases hc : w ≤ SHIFTED_DOUBLE_MAX_TAG
  · rw [if_pos hc, if_pos hc]
  · rw [if_neg hc, if_neg hc]
    have h17 : w >>> 47 < 2 ^ 17 := by
      rw [Nat.shiftRight_eq_div_pow]
      refine Nat.div_lt_of_lt_mul ?_
      have h2 : (2 : Nat) ^ 47 * 2 ^ 17 = 2 ^ 64 := by norm_num
      rw [h2]
      exact hw
    rw [Nat.mod_eq_of_lt (lt_trans h17 (by norm_num)), not_dmt_val, and_mask_17 _ h17]

/-- C6 witness: the tag of a concrete word above the boundary. -/
theorem tag_matches_spec_witness :
    (0xFFFF800000000000 : Nat) < 2 ^ 64 ∧
    NanBox.tag ⟨0xFFFF800000000000⟩ = tag_of_spec 0xFFFF800000000000 :=
  ⟨by norm_num, tag_matches_spec 0xFFFF800000000000 (by norm_num)⟩

/-- C9: the `f64` pack and unpack paths are raw bit reinterpretations, so
decoding the float-packed word of any 64-bit pattern, NaN encodings
included, is bit-for-bit the identity. -/
theorem f64_roundtrip_exact (f : Nat) (hf : f < 2 ^ 64) :
    f64_unpack_nan_box (f64_pack_nan_box f 0) = f := rfl

/-- C9 witness: exact round-trip at a NaN pattern with a payload bit set. -/
theorem f64_roundtrip_exact_witness :
    (0x7FF8000000000001 : Nat) < 2 ^ 64 ∧
    f64_unpack_nan_box (f64_pack_nan_box 0x7FF8000000000001 0) = 0x7FF8000000000001 :=
  ⟨by norm_num, f64_roundtrip_exact 0x7FF8000000000001 (by norm_num)⟩

/-- C5: for every non-NaN double pattern (finite values, signed zeros,
subnormals and both infinities), encoding with tag 0 and decoding is the
bit-for-bit identity. -/
theorem f64_finite_roundtrip (f : Nat) (hf : f < 2 ^ 64) (hnan : ¬ f64_is_nan f) :
    f64_unpack_nan_box (f64_pack_nan_box f 0) = f := rfl

/-- C5 witness: the round-trip at the positive infinity pattern. -/
theorem f64_finite_roundtrip_witness :
    (0x7FF0000000000000 : Nat) < 2 ^ 64 ∧ ¬ f64_is_nan 0x7FF0000000000000 ∧
    f64_unpack_nan_box (f64_pack_nan_box 0x7FF0000000000000 0) = 0x7FF0000000000000 :=
  ⟨by norm_num, by decide, f64_finite_roundtrip 0x7FF0000000000000 (by norm_num) (by decide)⟩

/-- C8: for every NaN double pattern, encoding with tag 0 and decoding
yields a NaN again. -/
theorem f64_nan_roundtrip_is_nan (f : Nat) (hf : f < 2 ^ 64) (hnan : f64_is_nan f) :
    f64_is_nan (f64_unpack_nan_box (f64_pack_nan_box f 0)) := hnan

/-- C8 witness: the quiet NaN pattern round-trips to a NaN. -/
theorem f64_nan_roundtrip_is_nan_witness :
    (0x7FF8000000000000 : Nat) < 2 ^ 64 ∧ f64_is_nan 0x7FF8000000000000 ∧
    f64_is_nan (f64_unpack_nan_box (f64_pack_nan_box 0x7FF8000000000000 0)) :=
  ⟨by norm_num, by decide, f64_nan_roundtrip_is_nan 0x7FF8000000000000 (by norm_num) (by decide)⟩

/-- C4 counterexample: the all-ones word is a double bit pattern (a NaN
encoding above the boundary) whose float-packed word has tag 15, not 0. -/
theorem tag_float_packed_counterexample :
    NanBox.tag ⟨f64_pack_nan_box 0xFFFFFFFFFFFFFFFF 0⟩ ≠ 0 := by decide

/-- C4 amended: `tag_of` of a float-packed word is 0 for every double bit
pattern at or below the boundary constant, which covers the maximum
non-NaN value and the standard NaN encodings at or below the boundary.
(The restriction is forced by the counterexample above: the all-ones NaN
pattern lies above the boundary and reads back tag 15.) -/
theorem tag_float_packed_boundary (f : Nat) (hf : f ≤ SHIFTED_DOUBLE_MAX_TAG) :
    NanBox.tag ⟨f64_pack_nan_box f 0⟩ = 0 := by
  unfold NanBox.tag f64_pack_nan_box
  rw [if_pos hf]

/-- C4 witness: tag 0 at the maximum finite double pattern. -/
theorem tag_float_packed_boundary_witness :
    (0x7FEFFFFFFFFFFFFF : Nat) ≤ SHIFTED_DOUBLE_MAX_TAG ∧
    NanBox.tag ⟨f64_pack_nan_box 0x7FEFFFFFFFFFFFFF 0⟩ = 0 :=
  ⟨by decide, tag_float_packed_boundary 0x7FEFFFFFFFFFFFFF (by decide)⟩

/-- C3: packing an address below `2 ^ 48` passes the debug check and
round-trips exactly through unpack, while any address at or above
`2 ^ 48`, in particular `1 <<< 48`, fails the debug-checked contract. -/
theorem pointer_boundary :
    (∀ a : Nat, a < 2 ^ 48 →
      ptr_into_nan_box_checked a = some ⟨a⟩ ∧
      ptr_unpack_nan_box (ptr_into_nan_box a) = a) ∧
    (∀ a : Nat, 2 ^ 48 ≤ a → ptr_into_nan_box_checked a = none) ∧
    ptr_into_nan_box_checked (1 <<< 48) = none := by
  refine ⟨fun a ha => ⟨?_, ?_⟩, fun a ha => ?_, by decide⟩
  · unfold ptr_into_nan_box_checked
    rw [if_pos]
    rw [Nat.shiftRight_eq_div_pow]
    exact Nat.div_eq_of_lt ha
  · unfold ptr_unpack_nan_box ptr_from_nan_box ptr_into_nan_box
    rw [unpack_nan_box_eq]
    exact Nat.mod_eq_of_lt ha
  · have hne : a >>> 48 ≠ 0 := by
      rw [Nat.shiftRight_eq_div_pow]
      have h48 : (2 : Nat) ^ 48 = 281474976710656 := by norm_num
      rw [h48] at ha ⊢
      omega
    unfold ptr_into_nan_box_checked
    rw [if_neg hne]

/-- C3 witness: the round-trip at address 3000 and the failure at
`2 ^ 48`, the concrete scenarios of the test suite. -/
theorem pointer_boundary_witness :
    (3000 : Nat) < 2 ^ 48 ∧
    ptr_into_nan_box_checked 3000 = some ⟨3000⟩ ∧
    ptr_unpack_nan_box (ptr_into_nan_box 3000) = 3000 ∧
    (2 : Nat) ^ 48 ≤ 2 ^ 48 ∧
    ptr_into_nan_box_checked (2 ^ 48) = none :=
  ⟨by norm_num, (pointer_boundary.1 3000 (by norm_num)).1,
    (pointer_boundary.1 3000 (by norm_num)).2, le_refl _,
    pointer_boundary.2.1 (2 ^ 48) (le_refl _)⟩

/-- C10: for every user tag and every packed payload below `2 ^ 47` the
debug assertion of `pack_nan_box` holds (the tag reads back), while a
payload with bit 47 set, although below `2 ^ 48`, makes the read-back tag
differ: packing `2 ^ 47` with tag 2 reads back tag 3. -/
theorem debug_assert_tag_bound (t : Nat) (ht1 : 1 ≤ t) (ht : t ≤ 15) :
    (∀ v : Nat, v < 2 ^ 47 → NanBox.tag ⟨pack_nan_box v t⟩ = t) ∧
    NanBox.tag ⟨pack_nan_box (2 ^ 47) 2⟩ = 3 :=
  ⟨fun v hv => tag_pack t v ht hv, by decide⟩

/-- C10 witness: the assertion property at tag 3 and payload 5. -/
theorem debug_assert_tag_bound_witness :
    (1 : Nat) ≤ 3 ∧ (3 : Nat) ≤ 15 ∧ (5 : Nat) < 2 ^ 47 ∧
    NanBox.tag ⟨pack_nan_box 5 3⟩ = 3 :=
  ⟨by norm_num, by norm_num, by norm_num,
    (debug_assert_tag_bound 3 (by norm_num) (by norm_num)).1 5 (by norm_num)⟩

/-- C7: tag assignment in a generated variant set is positional, with the
double type excepted: the float override ignores the positional tag
argument entirely (so a float variant encodes identically at any declared
position and its word reads back tag 0 whenever the pattern is at or
below the boundary), while a non-float payload packed with positional tag
i reads back exactly i; the schema with the double type declared second
still produces the raw tag-0 float encoding. -/
theorem positional_tags_float_override (i : Nat) (hi : i ≤ 15) :
    (∀ bits : Nat, f64_pack_nan_box bits i = f64_pack_nan_box bits 0) ∧
    (∀ bits : Nat, bits ≤ SHIFTED_DOUBLE_MAX_TAG →
      NanBox.tag ⟨f64_pack_nan_box bits i⟩ = 0) ∧
    (∀ v : Nat, v < 2 ^ 32 → NanBox.tag ⟨pack_nan_box v i⟩ = i) ∧
    (∀ bits : Nat, wrapFloatSecond (VariantFloatSecond.FloatV bits) =
      ⟨f64_pack_nan_box bits 0⟩) := by
  refine ⟨fun bits => rfl, fun bits hb => ?_, fun v hv => ?_, fun bits => rfl⟩
  · unfold NanBox.tag f64_pack_nan_box
    rw [if_pos hb]
  · exact tag_pack i v hi (lt_trans hv (by norm_num))

/-- C7 witness: position 1 with a float payload and an integer payload. -/
theorem positional_tags_float_override_witness :
    (1 : Nat) ≤ 15 ∧
    f64_pack_nan_box 0x40091EB851EB851F 1 = f64_pack_nan_box 0x40091EB851EB851F 0 ∧
    (123 : Nat) < 2 ^ 32 ∧
    NanBox.tag ⟨pack_nan_box 123 1⟩ = 1 :=
  ⟨by norm_num, (positional_tags_float_override 1 (by norm_num)).1 0x40091EB851EB851F,
    by norm_num, (positional_tags_float_override 1 (by norm_num)).2.2.1 123 (by norm_num)⟩

/-- C1: evaluation of the code at the failing input. Encoding the i32
value -1 with tag 1 sign-extends into the tag bits: decoding still
returns -1, but `tag` of the word is 15 rather than 1, so the
`debug_assert!(b.tag() == tag)` inside `pack_nan_box` fails and the
claimed `tag_of` identity does not hold. -/
theorem small_int_tag_counterexample :
    decode_i32 (encode_i32 1 (-1)) = -1 ∧
    NanBox.tag ⟨encode_i32 1 (-1)⟩ = 15 ∧ NanBox.tag ⟨encode_i32 1 (-1)⟩ ≠ 1 := by decide

/-- Round-trip behaviour of the six narrow integer types as the code
actually has it: for every tag t in 1..15, decoding the word produced by
encoding with tag t returns the value again for all values; `tag` of
that word returns t for the unsigned types and for the nonnegative
values of the signed types (negative signed values sign-extend over the
tag bits, so their read-back tag is not t). -/
theorem small_int_roundtrip (t : Nat) (ht1 : 1 ≤ t) (ht : t ≤ 15) :
    (∀ v : Nat, v < 2 ^ 8 →
      decode_u8 (encode_u8 t v) = v ∧ NanBox.tag ⟨encode_u8 t v⟩ = t) ∧
    (∀ v : Nat, v < 2 ^ 16 →
      decode_u16 (encode_u16 t v) = v ∧ NanBox.tag ⟨encode_u16 t v⟩ = t) ∧
    (∀ v : Nat, v < 2 ^ 32 →
      decode_u32 (encode_u32 t v) = v ∧ NanBox.tag ⟨encode_u32 t v⟩ = t) ∧
    (∀ v : Int, -(2 ^ 7) ≤ v → v < 2 ^ 7 →
      decode_i8 (encode_i8 t v) = v ∧
      (0 ≤ v → NanBox.tag ⟨encode_i8 t v⟩ = t)) ∧
    (∀ v : Int, -(2 ^ 15) ≤ v → v < 2 ^ 15 →
      decode_i16 (encode_i16 t v) = v ∧
      (0 ≤ v → NanBox.tag ⟨encode_i16 t v⟩ = t)) ∧
    (∀ v : Int, -(2 ^ 31) ≤ v → v < 2 ^ 31 →
      decode_i32 (encode_i32 t v) = v ∧
      (0 ≤ v → NanBox.tag ⟨encode_i32 t v⟩ = t)) := by
  refine ⟨fun v hv => ⟨?_, tag_pack t v ht (lt_trans hv (by norm_num))⟩,
    fun v hv => ⟨?_, tag_pack t v ht (lt_trans hv (by norm_num))⟩,
    fun v hv => ⟨?_, tag_pack t v ht (lt_trans hv (by norm_num))⟩,
    fun v h1 h2 => ⟨decode_i8_encode t v h1 h2,
      fun h0 => tag_pack t _ ht (int_as_u64_nonneg v h0 (lt_trans h2 (by norm_num)))⟩,
    fun v h1 h2 => ⟨decode_i16_encode t v h1 h2,
      fun h0 => tag_pack t _ ht (int_as_u64_nonneg v h0 (lt_trans h2 (by norm_num)))⟩,
    fun v h1 h2 => ⟨decode_i32_encode t v h1 h2,
      fun h0 => tag_pack t _ ht (int_as_u64_nonneg v h0 h2)⟩⟩
  · unfold decode_u8 encode_u8 u64_as_u8
    rw [decode_mod_low t v 8 (by norm_num)]
    exact Nat.mod_eq_of_lt hv
  · unfold decode_u16 encode_u16 u64_as_u16
    rw [decode_mod_low t v 16 (by norm_num)]
    exact Nat.mod_eq_of_lt hv
  · unfold decode_u32 encode_u32 u64_as_u32
    rw [decode_mod_low t v 32 (by norm_num)]
    exact Nat.mod_eq_of_lt hv

/-- Instantiation of the round-trip theorem: tag 3 with a u8 payload,
and the decode of a negative i32 payload. -/
theorem small_int_roundtrip_witness :
    (1 : Nat) ≤ 3 ∧ (3 : Nat) ≤ 15 ∧ (7 : Nat) < 2 ^ 8 ∧
    decode_u8 (encode_u8 3 7) = 7 ∧ NanBox.tag ⟨encode_u8 3 7⟩ = 3 ∧
    decode_i32 (encode_i32 3 (-5)) = -5 :=
  ⟨by norm_num, by norm_num, by norm_num,
    ((small_int_roundtrip 3 (by norm_num) (by norm_num)).1 7 (by norm_num)).1,
    ((small_int_roundtrip 3 (by norm_num) (by norm_num)).1 7 (by norm_num)).2,
    ((small_int_roundtrip 3 (by norm_num) (by norm_num)).2.2.2.2.2 (-5)
      (by norm_num) (by norm_num)).1⟩

/-- C2 counterexample: the address `2 ^ 47` is below `2 ^ 48`, yet its
wrapped word reads back tag 3, so `into_variant` reaches the
debug-asserted unreachable branch instead of returning the pointer. -/
theorem box_roundtrip_counterexample :
    Value.into_variant (Value.fromVariant (Variant.Pointer (2 ^ 47))) ≠
      some (Variant.Pointer (2 ^ 47)) := by decide

/-- C2 amended: for the variant set with Float declared first, wrap
followed by unwrap is the identity on `Int 123`, on `Float 3.14`
(pattern 0x40091EB851EB851F), and on every pointer whose address is
below `2 ^ 47`; addresses with bit 47 set corrupt the tag. -/
theorem box_roundtrip_amended :
    Value.into_variant (Value.fromVariant (Variant.Int 123)) = some (Variant.Int 123) ∧
    (∀ p : Nat, p < 2 ^ 47 →
      Value.into_variant (Value.fromVariant (Variant.Pointer p)) =
        some (Variant.Pointer p)) ∧
    Value.into_variant (Value.fromVariant (Variant.Float 0x40091EB851EB851F)) =
      some (Variant.Float 0x40091EB851EB851F) := by
  refine ⟨by decide, fun p hp => ?_, by decide⟩
  have htag : NanBox.tag ⟨pack_nan_box p 2⟩ = 2 := tag_pack 2 p (by norm_num) hp
  have hunp : ptr_unpack_nan_box (pack_nan_box p 2) = p := by
    unfold ptr_unpack_nan_box ptr_from_nan_box
    rw [unpack_nan_box_eq, pack_eq p 2 (by norm_num) hp]
    simp only [DOUBLE_MAX_TAG]
    omega
  simp only [Value.fromVariant, Value.into_variant, ptr_into_nan_box]
  rw [htag]
  norm_num
  exact hunp

/-- C2 witness: the pointer scenario at the address 3000 used by the
test suite. -/
theorem box_roundtrip_witness :
    (3000 : Nat) < 2 ^ 47 ∧
    Value.into_variant (Value.fromVariant (Variant.Pointer 3000)) =
      some (Variant.Pointer 3000) :=
  ⟨by norm_num, box_roundtrip_amended.2.1 3000 (by norm_num)⟩
